import Mathlib

/-!
Verification development for the DriftOS client library (`src/client.ts`).

The embedding below translates the two core components of the library —
the HTTP Transport (`DriftClient.request` plus the six named operations)
and the Prompt Assembler (`DriftClient.buildPrompt`) — into pure Lean
definitions.  JavaScript runtime behaviour that the code relies on is made
explicit: truthiness tests (`if (body)`, `if (this.apiKey)`,
`includeFacts && factsBlock`), nullish coalescing (`??`), destructuring
defaults, `String.prototype.trim`, and the outcome of the raced
`fetch` / `setTimeout` pair (modelled by an explicit outcome value fed to
`request`).
-/

namespace Drift

/-- A JavaScript runtime value, as far as the client's truthiness tests
need to distinguish them.  `body?: unknown` in `request` is an arbitrary
JS value; `if (body)` branches on its truthiness. -/
inductive JsValue where
  | undefined
  | null
  | boolean (b : Bool)
  | number (n : Int)
  | string (s : String)
  | object
deriving DecidableEq, Repr

/-- JavaScript truthiness: `undefined`, `null`, `false`, `0`, and the
empty string are falsy; objects are always truthy. -/
def JsValue.truthy : JsValue → Bool
  | .undefined => false
  | .null => false
  | .boolean b => b
  | .number n => n != 0
  | .string s => s != ""
  | .object => true

/-- Truthiness of the optional `body` parameter: an omitted parameter is
`undefined`, hence falsy. -/
def bodyTruthy : Option JsValue → Bool
  | some v => v.truthy
  | none => false

/-- The configuration record accepted by the constructor.  `baseUrl`,
`apiKey` and `timeout` are read by `client.ts`; `hosted` is part of the
configuration surface documented in the package README ("Optional: Hosted
mode flag (auto-detected for api.driftos.dev)") but the constructor in
`client.ts` never reads it. -/
structure DriftConfig where
  baseUrl : String
  apiKey : Option String := none
  timeout : Option Nat := none
  hosted : Option Bool := none

/-- `config.baseUrl.replace(/\/$/, '')`: the regex matches a single `/`
at the end of the string, so exactly one trailing slash is removed when
present. -/
def stripOneTrailingSlash (s : String) : String :=
  if s.toList.getLast? = some '/' then String.mk s.toList.dropLast else s

/-- The client's private state after construction (`this.baseUrl`,
`this.apiKey`, `this.timeout`); never mutated afterwards. -/
structure DriftClient where
  baseUrl : String
  apiKey : Option String
  timeout : Nat

/-- The constructor body: strip one trailing slash from `baseUrl`, copy
`apiKey`, default `timeout` to 10000 via `??` (nullish, not truthiness,
so an explicit 0 is kept). -/
def mkDriftClient (config : DriftConfig) : DriftClient :=
  { baseUrl := stripOneTrailingSlash config.baseUrl
    apiKey := config.apiKey
    timeout := config.timeout.getD 10000 }

/-- The headers record assembled by `request` (only the two headers the
code can set). -/
structure Headers where
  contentType : Option String
  authorization : Option String
deriving DecidableEq, Repr

/-- Lines 29–37 of `client.ts`: `Content-Type` is set iff `body` is
truthy, `Authorization` iff `this.apiKey` is truthy (a configured empty
string is falsy). -/
def requestHeaders (apiKey : Option String) (body : Option JsValue) : Headers :=
  { contentType := if bodyTruthy body then some "application/json" else none
    authorization :=
      match apiKey with
      | some k => if k != "" then some ("Bearer " ++ k) else none
      | none => none }

/-- The error object inside a response envelope; both the object and its
`message` field may be absent (`data.error?.message`). -/
structure ErrorObj where
  message : Option String
deriving DecidableEq, Repr

/-- The parsed response body `data`: `success`, `data` and `error` fields
as the code reads them. -/
structure Envelope where
  success : Bool
  data : JsValue
  error : Option ErrorObj
deriving DecidableEq, Repr

/-- `data.error?.message` as an optional string. -/
def envMessage (e : Envelope) : Option String :=
  e.error.bind fun o => o.message

/-- `response.ok`: HTTP status in the 200–299 range. -/
def statusOk (status : Nat) : Bool :=
  200 ≤ status && status ≤ 299

/-- Line 50: `data.error?.message ?? ` followed by the synthesized
status message. -/
def requestErrorMessage (status : Nat) (e : Envelope) : String :=
  (envMessage e).getD ("Request failed: " ++ toString status)

/-- What the raced `fetch` / timeout pair can produce, from the point of
view of the `try` block: the timer fires first (abort), `fetch` itself
rejects, the response body fails to parse as JSON, or a parsed envelope
arrives with some HTTP status. -/
inductive FetchOutcome where
  | timeout
  | networkError
  | malformedBody (status : Nat)
  | envelope (status : Nat) (e : Envelope)

/-- The spec's error taxonomy for Transport failures, keyed to the exit
path of `request` that produces each one. -/
inductive DriftError where
  | timeoutError
  | networkError
  | protocolError
  | requestError (message : String)
deriving DecidableEq, Repr

/-- Everything observable about one `request` invocation: the URL and
headers handed to `fetch`, the result, whether the abort signal fired,
and whether `clearTimeout` ran. -/
structure RequestTrace where
  url : String
  headers : Headers
  result : Except DriftError JsValue
  aborted : Bool
  timerCleared : Bool

/-- The body of the `try` block (lines 40–53), for a given outcome of the
network: result together with whether the abort signal fired.  A timeout
means `controller.abort()` ran and `fetch` rejected; a parse failure means
`response.json()` rejected; an envelope is checked with
`!response.ok || !data.success` and either throws the envelope error
message or returns `data.data`. -/
def tryBody (outcome : FetchOutcome) : Except DriftError JsValue × Bool :=
  match outcome with
  | .timeout => (Except.error .timeoutError, true)
  | .networkError => (Except.error .networkError, false)
  | .malformedBody _ => (Except.error .protocolError, false)
  | .envelope status e =>
      if !statusOk status || !e.success then
        (Except.error (.requestError (requestErrorMessage status e)), false)
      else
        (Except.ok e.data, false)

/-- `request(method, path, body?)`: build headers, run the `try` block
against the network outcome, and in all cases run the `finally` clause
(`clearTimeout(timeoutId)`).  The URL is `baseUrl + path` verbatim. -/
def request (client : DriftClient) (path : String) (body : Option JsValue)
    (outcome : FetchOutcome) : RequestTrace :=
  let h := requestHeaders client.apiKey body
  let r := tryBody outcome
  { url := client.baseUrl ++ path
    headers := h
    result := r.1
    aborted := r.2
    timerCleared := true }

/-- Path used by `route` (line 67). -/
def routePath : String := "/api/v1/drift/route"

/-- Path used by `getBranches` (line 78). -/
def getBranchesPath (conversationId : String) : String :=
  "/api/v1/drift/branches/" ++ conversationId

/-- Path used by `getContext` (line 85), also the one `buildPrompt`
reaches through its internal `getContext` call. -/
def getContextPath (branchId : String) : String :=
  "/api/v1/context/" ++ branchId

/-- Path used by `extractFacts` (line 92). -/
def extractFactsPath (branchId : String) : String :=
  "/api/v1/facts/" ++ branchId ++ "/extract"

/-- Path used by `getFacts` (line 99). -/
def getFactsPath (branchId : String) : String :=
  "/api/v1/facts/" ++ branchId

/-- A key/value fact pair. -/
structure Fact where
  key : String
  value : String
deriving DecidableEq, Repr

/-- One branch's fact snapshot inside a context (`BranchFactSet`). -/
structure BranchFactSet where
  branchId : String
  branchTopic : String
  isCurrent : Bool
  facts : List Fact
deriving DecidableEq, Repr

/-- A conversation message. -/
structure Message where
  role : String
  content : String
deriving DecidableEq, Repr

/-- The context returned by `getContext` and consumed by `buildPrompt`. -/
structure Context where
  branchTopic : String
  messages : List Message
  allFacts : List BranchFactSet
deriving DecidableEq, Repr

/-- The argument record a custom template function receives
(lines 120–125): no field gives access to raw messages. -/
structure TemplateContext where
  systemPrompt : String
  branchTopic : String
  facts : List Fact
  otherTopics : List String

/-- The options object form of `buildPrompt`'s second parameter; each
field may be absent (JS `undefined`), in which case the destructuring
defaults on lines 135–141 apply. -/
structure PromptOptions where
  systemPrompt : Option String := none
  includeOtherTopics : Option Bool := none
  includeFacts : Option Bool := none
  factsFromAllBranches : Option Bool := none
  template : Option (TemplateContext → String) := none

/-- `buildPrompt`'s second parameter: omitted, the legacy bare string,
or an options object. -/
inductive PromptArg where
  | omitted
  | legacy (systemPrompt : String)
  | opts (o : PromptOptions)

/-- Lines 131–133: a bare string (any string, the empty one included)
becomes `\x7b systemPrompt: s \x7d`; `undefined` becomes `\x7b\x7d`. -/
def normalizeOptions : PromptArg → PromptOptions
  | .omitted => {}
  | .legacy s => { systemPrompt := some s }
  | .opts o => o

/-- Lines 144–148: the facts to include.  When `includeFacts` holds,
filter `allFacts` by `factsFromAllBranches || isCurrent` and flatMap each
kept branch's facts to bare key/value pairs. -/
def selectedFacts (includeFacts factsFromAllBranches : Bool) (ctx : Context) : List Fact :=
  if includeFacts then
    (ctx.allFacts.filter fun b => factsFromAllBranches || b.isCurrent).flatMap
      fun b => b.facts.map fun f => { key := f.key, value := f.value }
  else []

/-- Lines 150–152: the topics of every non-current branch, in order. -/
def otherTopicsOf (includeOtherTopics : Bool) (ctx : Context) : List String :=
  if includeOtherTopics then
    (ctx.allFacts.filter fun b => !b.isCurrent).map fun b => b.branchTopic
  else []

/-- Lines 164–166: one line per fact, joined by newlines. -/
def factsBlock (facts : List Fact) : String :=
  String.intercalate "\n" (facts.map fun f => "- " ++ f.key ++ ": " ++ f.value)

/-- A character the ECMAScript `trim` removes: the WhiteSpace and
LineTerminator productions (tab, LF, VT, FF, CR, space, NBSP, the Zs
category, LS, PS, and the BOM). -/
def jsWhitespaceChar (c : Char) : Bool :=
  let n := c.toNat
  (9 ≤ n && n ≤ 13) || n = 32 || n = 160 || n = 5760 ||
  (8192 ≤ n && n ≤ 8202) || n = 8232 || n = 8233 || n = 8239 ||
  n = 8287 || n = 12288 || n = 65279

/-- `String.prototype.trim`: drop leading and trailing runs of the
characters above. -/
def jsTrim (s : String) : String :=
  String.mk (((s.toList.dropWhile jsWhitespaceChar).reverse.dropWhile
    jsWhitespaceChar).reverse)

/-- Lines 163–180, the default template: start from
`[systemPrompt, '\nCurrent topic: ' + branchTopic]`, push the facts block
when `includeFacts && factsBlock` is truthy, push the other-topics line
when `includeOtherTopics && otherTopics.length > 0`, then
`parts.join('').trim()`. -/
def defaultSystem (systemPrompt branchTopic : String)
    (includeFacts : Bool) (facts : List Fact)
    (includeOtherTopics : Bool) (otherTopics : List String) : String :=
  let fb := factsBlock facts
  let parts := [systemPrompt, "\nCurrent topic: " ++ branchTopic]
  let parts := if includeFacts && fb != "" then
    parts ++ ["\nKnown facts:\n" ++ fb] else parts
  let parts := if includeOtherTopics && decide (otherTopics.length > 0) then
    parts ++ ["\nOther topics discussed: " ++ String.intercalate ", " otherTopics]
    else parts
  jsTrim (String.join parts)

/-- `buildPrompt`'s return value. -/
structure PromptResult where
  system : String
  messages : List Message

/-- The pure part of `buildPrompt` (lines 130–187), applied to the
context already fetched through `getContext`: normalize the argument,
apply destructuring defaults, select facts and other topics, build
`system` through the custom template when one is supplied or through the
default template otherwise, and project `messages` to role/content
pairs. -/
def buildPrompt (ctx : Context) (arg : PromptArg) : PromptResult :=
  let options := normalizeOptions arg
  let systemPrompt := options.systemPrompt.getD "You are a helpful assistant."
  let includeOtherTopics := options.includeOtherTopics.getD true
  let includeFacts := options.includeFacts.getD true
  let factsFromAllBranches := options.factsFromAllBranches.getD false
  let factsToInclude := selectedFacts includeFacts factsFromAllBranches ctx
  let otherTopics := otherTopicsOf includeOtherTopics ctx
  let system :=
    match options.template with
    | some t =>
        t { systemPrompt := systemPrompt
            branchTopic := ctx.branchTopic
            facts := factsToInclude
            otherTopics := otherTopics }
    | none =>
        defaultSystem systemPrompt ctx.branchTopic includeFacts factsToInclude
          includeOtherTopics otherTopics
  { system := system
    messages := ctx.messages.map fun m => { role := m.role, content := m.content } }

/-- Fact selection as §4.2 step 2 of the spec words it: empty when
`includeFacts` is false; otherwise filter `allFacts` to the sets where
`factsFromAllBranches` is true or the set's `isCurrent` is true, then
flatten their `facts` entries into key/value pairs, branch order first
and fact order within each branch, topic and id discarded. -/
def specSelectFacts (includeFacts factsFromAllBranches : Bool) (ctx : Context) : List Fact :=
  if includeFacts = false then []
  else (ctx.allFacts.filter fun b => factsFromAllBranches || b.isCurrent).flatMap
    fun b => b.facts.map fun f => { key := f.key, value := f.value }

/-- The example context of §8 of the spec. -/
def exampleContext : Context :=
  { branchTopic := "Paris trip planning"
    messages := [{ role := "user", content := "I want to plan a trip to Paris" }]
    allFacts :=
      [{ branchId := "b1"
         branchTopic := "Paris trip planning"
         isCurrent := true
         facts := [{ key := "destination", value := "Paris" }] },
       { branchId := "b2"
         branchTopic := "Budget tracking"
         isCurrent := false
         facts := [] }] }

/-- A degraded context in which no branch fact set is marked current. -/
def noCurrentContext : Context :=
  { branchTopic := "t"
    messages := []
    allFacts :=
      [{ branchId := "b1", branchTopic := "a", isCurrent := false
         facts := [{ key := "k", value := "v" }] },
       { branchId := "b2", branchTopic := "b", isCurrent := false, facts := [] }] }

/-- A degraded context with an empty branch topic. -/
def emptyTopicContext : Context :=
  { branchTopic := "", messages := [], allFacts := [] }

/-- A concrete custom template used to instantiate the template claims. -/
def cTemplate : TemplateContext → String :=
  fun tc => tc.systemPrompt ++ "|" ++ tc.branchTopic

/-! ### Helper lemmas about the string primitives -/

theorem string_foldl_append (l : List String) (a b : String) :
    l.foldl (fun r s => r ++ s) (a ++ b) = a ++ l.foldl (fun r s => r ++ s) b := by
  induction l generalizing b with
  | nil => rfl
  | cons c t ih => simp only [List.foldl_cons, String.append_assoc, ih]

theorem string_join_cons (a : String) (l : List String) :
    String.join (a :: l) = a ++ String.join l := by
  show l.foldl (fun r s => r ++ s) ("" ++ a) = a ++ l.foldl (fun r s => r ++ s) ""
  rw [String.empty_append]
  calc l.foldl (fun r s => r ++ s) a
      = l.foldl (fun r s => r ++ s) (a ++ "") := by rw [String.append_empty]
    _ = a ++ l.foldl (fun r s => r ++ s) "" := string_foldl_append l a ""

theorem intercalate_go_eq (l : List String) (acc s : String) :
    ∃ r, String.intercalate.go acc s l = acc ++ r := by
  induction l generalizing acc with
  | nil => exact ⟨"", (String.append_empty acc).symm⟩
  | cons a as ih =>
      obtain ⟨r, hr⟩ := ih (acc ++ s ++ a)
      refine ⟨s ++ a ++ r, ?_⟩
      rw [String.intercalate.go, hr]
      simp [String.append_assoc]

theorem string_eq_empty_iff_length (s : String) : s = "" ↔ s.length = 0 := by
  constructor
  · intro h; rw [h]; rfl
  · intro h
    cases s with
    | mk data => cases data with
      | nil => rfl
      | cons c cs => simp [String.length] at h

theorem string_intercalate_cons_ne (s x : String) (xs : List String) (hx : x ≠ "") :
    String.intercalate s (x :: xs) ≠ "" := by
  obtain ⟨r, hr⟩ := intercalate_go_eq xs x s
  show String.intercalate.go x s xs ≠ ""
  rw [hr]
  intro h
  rw [string_eq_empty_iff_length, String.length_append] at h
  exact hx (by rw [string_eq_empty_iff_length]; omega)

theorem dash_line_ne (a b : String) : ("- " ++ a ++ ": " ++ b) ≠ "" := by
  intro h
  rw [string_eq_empty_iff_length] at h
  simp [String.length_append] at h
  exact absurd h.1.1.1 (by decide)

theorem factsBlock_empty_iff (facts : List Fact) : factsBlock facts = "" ↔ facts = [] := by
  cases facts with
  | nil => exact ⟨fun _ => rfl, fun _ => rfl⟩
  | cons f rest =>
      simp only [factsBlock, List.map_cons]
      exact ⟨fun h => absurd h (string_intercalate_cons_ne _ _ _ (dash_line_ne _ _)),
             fun h => by cases h⟩

theorem string_join_nil : String.join [] = "" := rfl

theorem defaultSystem_spec (sp topic : String) (incF : Bool) (facts : List Fact)
    (incT : Bool) (topics : List String) :
    defaultSystem sp topic incF facts incT topics =
      jsTrim (sp ++ ("\nCurrent topic: " ++ topic) ++
        (if incF = true ∧ facts ≠ [] then
          "\nKnown facts:\n" ++
            String.intercalate "\n" (facts.map fun f => "- " ++ f.key ++ ": " ++ f.value)
         else "") ++
        (if incT = true ∧ topics ≠ [] then
          "\nOther topics discussed: " ++ String.intercalate ", " topics
         else "")) := by
  have hF : ((incF && (factsBlock facts != "")) = true) ↔ (incF = true ∧ facts ≠ []) := by
    rw [Bool.and_eq_true, bne_iff_ne]
    exact and_congr_right fun _ => not_congr (factsBlock_empty_iff facts)
  have hT : ((incT && decide (topics.length > 0)) = true) ↔ (incT = true ∧ topics ≠ []) := by
    rw [Bool.and_eq_true, decide_eq_true_eq]
    exact and_congr_right fun _ => List.length_pos
  simp only [defaultSystem, hF, hT]
  by_cases h1 : incF = true ∧ facts ≠ [] <;> by_cases h2 : incT = true ∧ topics ≠ [] <;>
    simp [h1, h2, string_join_cons, string_join_nil, factsBlock,
      String.append_assoc, String.append_empty, String.empty_append]

theorem buildPrompt_system_default (ctx : Context) (arg : PromptArg)
    (h : (normalizeOptions arg).template = none) :
    (buildPrompt ctx arg).system =
      defaultSystem ((normalizeOptions arg).systemPrompt.getD "You are a helpful assistant.")
        ctx.branchTopic
        ((normalizeOptions arg).includeFacts.getD true)
        (selectedFacts ((normalizeOptions arg).includeFacts.getD true)
          ((normalizeOptions arg).factsFromAllBranches.getD false) ctx)
        ((normalizeOptions arg).includeOtherTopics.getD true)
        (otherTopicsOf ((normalizeOptions arg).includeOtherTopics.getD true) ctx) := by
  simp only [buildPrompt, h]

theorem buildPrompt_system_template (ctx : Context) (arg : PromptArg)
    (t : TemplateContext → String) (h : (normalizeOptions arg).template = some t) :
    (buildPrompt ctx arg).system =
      t { systemPrompt := (normalizeOptions arg).systemPrompt.getD "You are a helpful assistant."
          branchTopic := ctx.branchTopic
          facts := selectedFacts ((normalizeOptions arg).includeFacts.getD true)
            ((normalizeOptions arg).factsFromAllBranches.getD false) ctx
          otherTopics := otherTopicsOf ((normalizeOptions arg).includeOtherTopics.getD true) ctx } := by
  simp only [buildPrompt, h]

theorem dropWhile_append_head_false (q : Char → Bool) (a b : List Char) (c : Char)
    (hc : q c = false) :
    ∃ t, List.dropWhile q (a ++ c :: b) = t ++ c :: b := by
  induction a with
  | nil => exact ⟨[], by simp [List.dropWhile_cons, hc]⟩
  | cons x xs ih =>
      by_cases hx : q x = true
      · obtain ⟨t, ht⟩ := ih
        exact ⟨t, by simp [List.dropWhile_cons, hx, ht]⟩
      · exact ⟨x :: xs, by simp [List.dropWhile_cons, hx]⟩

theorem rtrim_append_last_false (p b : List Char) (c : Char)
    (hc : jsWhitespaceChar c = false) :
    ∃ q, ((p ++ c :: b).reverse.dropWhile jsWhitespaceChar).reverse = p ++ c :: q := by
  obtain ⟨t, ht⟩ := dropWhile_append_head_false jsWhitespaceChar b.reverse p.reverse c hc
  refine ⟨t.reverse, ?_⟩
  rw [show (p ++ c :: b).reverse = b.reverse ++ c :: p.reverse from by simp, ht]
  simp

theorem jsTrim_current_topic (tail : String) :
    ∃ r : String, jsTrim ("\nCurrent topic: " ++ tail) = "Current topic:" ++ r := by
  have h0 : ("\nCurrent topic: " ++ tail).toList =
      '\n' :: 'C' :: ("urrent topic".toList ++ ':' :: ' ' :: tail.toList) := by
    show ("\nCurrent topic: ").data ++ tail.data = _
    rw [show ("\nCurrent topic: ").data = '\n' :: 'C' :: ("urrent topic".data ++ [':', ' '])
      from by decide]
    simp
  obtain ⟨q, hq⟩ := rtrim_append_last_false ('C' :: "urrent topic".toList) (' ' :: tail.toList)
    ':' (by decide)
  refine ⟨String.mk q, ?_⟩
  apply String.ext
  show (jsTrim ("\nCurrent topic: " ++ tail)).data = ("Current topic:").data ++ q
  rw [show ("Current topic:").data = 'C' :: "urrent topic".data ++ [':'] from by decide]
  simp only [jsTrim, h0]
  rw [show List.dropWhile jsWhitespaceChar
      ('\n' :: 'C' :: ("urrent topic".toList ++ ':' :: ' ' :: tail.toList)) =
      ('C' :: "urrent topic".toList) ++ ':' :: (' ' :: tail.toList) from by
    rw [List.dropWhile_cons, if_pos (by decide), List.dropWhile_cons, if_neg (by decide)]
    simp]
  rw [hq]
  simp

theorem jsTrim_empty_sp (x y z : String) :
    ∃ r, jsTrim ("" ++ ("\nCurrent topic: " ++ x) ++ y ++ z) = "Current topic:" ++ r := by
  rw [show ("" : String) ++ ("\nCurrent topic: " ++ x) ++ y ++ z
      = "\nCurrent topic: " ++ (x ++ (y ++ z)) from by
    simp [String.append_assoc, String.empty_append]]
  exact jsTrim_current_topic (x ++ (y ++ z))

theorem strip_append_slash (u : String) : stripOneTrailingSlash (u ++ "/") = u := by
  unfold stripOneTrailingSlash
  have hl : (u ++ "/").toList = u.toList ++ ['/'] := by
    show (u ++ "/").data = u.data ++ ['/']
    rw [String.data_append]
  rw [hl, List.getLast?_concat, if_pos rfl, List.dropLast_concat]
  exact String.ext rfl

/-! ### Claim theorems -/

/-- C1: the spec (and the package README) require hosted-mode detection:
with the override unset and `baseUrl` on the hosted gateway's domain the
six operations must issue their requests with the fixed `/api/v1` path
part stripped.  The constructor in `client.ts` ignores the `hosted`
configuration field entirely and every operation hard-codes its
`/api/v1`-prefixed path, so on the hosted base URL the route request
still goes to `/api/v1/drift/route`, whatever the override holds.  This
evaluates the code at that failing input. -/
theorem c1_hosted_base_url_still_gets_api_v1 :
    ∀ hosted : Option Bool,
      ((request
        (mkDriftClient { baseUrl := "https://api.driftos.dev", hosted := hosted })
        routePath none
        (.envelope 200 { success := true, data := .null, error := none })).url
        = "https://api.driftos.dev/api/v1/drift/route") ∧
      ((request
        (mkDriftClient { baseUrl := "https://api.driftos.dev", hosted := hosted })
        (getBranchesPath "c") none
        (.envelope 200 { success := true, data := .null, error := none })).url
        = "https://api.driftos.dev/api/v1/drift/branches/c") ∧
      ((request
        (mkDriftClient { baseUrl := "https://api.driftos.dev", hosted := hosted })
        (getContextPath "b") none
        (.envelope 200 { success := true, data := .null, error := none })).url
        = "https://api.driftos.dev/api/v1/context/b") ∧
      ((request
        (mkDriftClient { baseUrl := "https://api.driftos.dev", hosted := hosted })
        (extractFactsPath "b") none
        (.envelope 200 { success := true, data := .null, error := none })).url
        = "https://api.driftos.dev/api/v1/facts/b/extract") ∧
      ((request
        (mkDriftClient { baseUrl := "https://api.driftos.dev", hosted := hosted })
        (getFactsPath "b") none
        (.envelope 200 { success := true, data := .null, error := none })).url
        = "https://api.driftos.dev/api/v1/facts/b") :=
  fun _ => ⟨rfl, rfl, rfl, rfl, rfl⟩

/-- C2: for every HTTP status and parsed envelope, a `success = false`
envelope with `error.message` present makes `request` fail with exactly
that message regardless of status; a failing case (non-2xx status or
`success = false`) without a message fails with the synthesized message
carrying the status code; a 2xx status with `success = true` returns
`envelope.data`. -/
theorem c2_envelope_error_handling (client : DriftClient) (path : String)
    (body : Option JsValue) (status : Nat) (e : Envelope) :
    (∀ X, e.success = false → envMessage e = some X →
      (request client path body (.envelope status e)).result
        = .error (.requestError X)) ∧
    ((statusOk status = false ∨ e.success = false) → envMessage e = none →
      (request client path body (.envelope status e)).result
        = .error (.requestError ("Request failed: " ++ toString status))) ∧
    (statusOk status = true → e.success = true →
      (request client path body (.envelope status e)).result = .ok e.data) := by
  refine ⟨?_, ?_, ?_⟩
  · intro X h1 h2
    simp [request, tryBody, requestErrorMessage, h1, h2]
  · intro hor h2
    rcases hor with h1 | h1 <;>
      simp [request, tryBody, requestErrorMessage, h1, h2]
  · intro h1 h2
    simp [request, tryBody, h1, h2]

/-- C2 witness: a 500 response with a `success = false` envelope whose
error message is "boom" fails with exactly "boom". -/
theorem c2_envelope_error_handling_witness :
    (request (mkDriftClient { baseUrl := "b" }) routePath none
      (.envelope 500
        { success := false, data := .null, error := some { message := some "boom" } })).result
      = .error (.requestError "boom") :=
  (c2_envelope_error_handling (mkDriftClient { baseUrl := "b" }) routePath none 500
    { success := false, data := .null, error := some { message := some "boom" } }).1
    "boom" rfl rfl

/-- C3: when no response arrives within the timeout the abort signal
fires and the call fails with the timeout error, and on every exit path
(success, HTTP or envelope error, parse error, network error, timeout)
the `finally` clause clears the timer. -/
theorem c3_timeout_aborts_and_timer_cleared (client : DriftClient) (path : String)
    (body : Option JsValue) (outcome : FetchOutcome) :
    ((request client path body .timeout).result = .error .timeoutError ∧
      (request client path body .timeout).aborted = true) ∧
    (request client path body outcome).timerCleared = true :=
  ⟨⟨rfl, rfl⟩, rfl⟩

/-- C4: without a custom template the system string is exactly the
configured systemPrompt, then a current-topic line, then (iff facts are
included and the selected fact list is non-empty) a known-facts block of
one dashed line per fact, then (iff other topics are included and
non-empty) an other-topics line, the whole trimmed of leading and
trailing whitespace; on the §8 example context with default options the
system string is byte-identical to the expected string. -/
theorem c4_default_template_concatenation (ctx : Context) (arg : PromptArg)
    (h : (normalizeOptions arg).template = none) :
    ((buildPrompt ctx arg).system =
      jsTrim ((normalizeOptions arg).systemPrompt.getD "You are a helpful assistant." ++
        ("\nCurrent topic: " ++ ctx.branchTopic) ++
        (if (normalizeOptions arg).includeFacts.getD true = true ∧
            selectedFacts ((normalizeOptions arg).includeFacts.getD true)
              ((normalizeOptions arg).factsFromAllBranches.getD false) ctx ≠ [] then
          "\nKnown facts:\n" ++ String.intercalate "\n"
            ((selectedFacts ((normalizeOptions arg).includeFacts.getD true)
              ((normalizeOptions arg).factsFromAllBranches.getD false) ctx).map
                fun f => "- " ++ f.key ++ ": " ++ f.value)
         else "") ++
        (if (normalizeOptions arg).includeOtherTopics.getD true = true ∧
            otherTopicsOf ((normalizeOptions arg).includeOtherTopics.getD true) ctx ≠ [] then
          "\nOther topics discussed: " ++ String.intercalate ", "
            (otherTopicsOf ((normalizeOptions arg).includeOtherTopics.getD true) ctx)
         else ""))) ∧
    (buildPrompt exampleContext .omitted).system =
      "You are a helpful assistant.\nCurrent topic: Paris trip planning\nKnown facts:\n- destination: Paris\nOther topics discussed: Budget tracking" := by
  constructor
  · rw [buildPrompt_system_default ctx arg h, defaultSystem_spec]
  · decide

/-- C4 witness: the §8 example, with the hypothesis discharged at the
no-template default options. -/
theorem c4_default_template_concatenation_witness :
    (buildPrompt exampleContext .omitted).system =
      "You are a helpful assistant.\nCurrent topic: Paris trip planning\nKnown facts:\n- destination: Paris\nOther topics discussed: Budget tracking" :=
  (c4_default_template_concatenation exampleContext .omitted rfl).2

/-- C5: with includeFacts false the fact list is empty and the default
system string has no known-facts section even for a non-empty allFacts;
otherwise the fact list is exactly the spec's filter-then-flatten over
allFacts (branch order, then fact order, topic/id discarded). -/
theorem c5_fact_selection (ctx : Context) (allB : Bool) :
    selectedFacts false allB ctx = [] ∧
    (∀ incF, selectedFacts incF allB ctx = specSelectFacts incF allB ctx) ∧
    (∀ (ctx2 : Context) (arg : PromptArg),
      (normalizeOptions arg).template = none →
      (normalizeOptions arg).includeFacts = some false →
      (buildPrompt ctx2 arg).system =
        jsTrim ((normalizeOptions arg).systemPrompt.getD "You are a helpful assistant." ++
          ("\nCurrent topic: " ++ ctx2.branchTopic) ++
          (if (normalizeOptions arg).includeOtherTopics.getD true = true ∧
              otherTopicsOf ((normalizeOptions arg).includeOtherTopics.getD true) ctx2 ≠ [] then
            "\nOther topics discussed: " ++ String.intercalate ", "
              (otherTopicsOf ((normalizeOptions arg).includeOtherTopics.getD true) ctx2)
           else ""))) := by
  refine ⟨rfl, fun incF => ?_, fun ctx2 arg ht hif => ?_⟩
  · cases incF <;> simp [selectedFacts, specSelectFacts]
  · rw [buildPrompt_system_default ctx2 arg ht, defaultSystem_spec, hif]
    simp [String.append_assoc, String.append_empty, String.empty_append]

/-- C5 witness: on the §8 example with includeFacts false the system
string has no known-facts section though allFacts is non-empty. -/
theorem c5_fact_selection_witness :
    (buildPrompt exampleContext (.opts { includeFacts := some false })).system =
      "You are a helpful assistant.\nCurrent topic: Paris trip planning\nOther topics discussed: Budget tracking" := by
  rw [(c5_fact_selection exampleContext false).2.2 exampleContext
    (.opts { includeFacts := some false }) rfl rfl]
  decide

/-- C6: a supplied template's return value is used verbatim as `system`
(no default construction, no trimming), the template is invoked with
exactly the resolved systemPrompt, the context's branch topic, the
step-2 facts and the step-3 other topics (the TemplateContext type
carries no messages field), and `messages` is always the role/content
projection of `context.messages`, independent of templating. -/
theorem c6_custom_template_verbatim (ctx : Context) (arg : PromptArg)
    (t : TemplateContext → String) (h : (normalizeOptions arg).template = some t) :
    ((buildPrompt ctx arg).system =
      t { systemPrompt := (normalizeOptions arg).systemPrompt.getD "You are a helpful assistant."
          branchTopic := ctx.branchTopic
          facts := selectedFacts ((normalizeOptions arg).includeFacts.getD true)
            ((normalizeOptions arg).factsFromAllBranches.getD false) ctx
          otherTopics := otherTopicsOf ((normalizeOptions arg).includeOtherTopics.getD true) ctx }) ∧
    (∀ (ctx2 : Context) (arg2 : PromptArg),
      (buildPrompt ctx2 arg2).messages =
        ctx2.messages.map fun m => { role := m.role, content := m.content }) :=
  ⟨buildPrompt_system_template ctx arg t h, fun _ _ => rfl⟩

/-- C6 witness: a concrete template on the §8 example is returned
verbatim. -/
theorem c6_custom_template_verbatim_witness :
    (buildPrompt exampleContext (.opts { template := some cTemplate })).system =
      "You are a helpful assistant.|Paris trip planning" := by
  rw [(c6_custom_template_verbatim exampleContext (.opts { template := some cTemplate })
    cTemplate rfl).1]
  decide

/-- C7 counterexample: the code tests JS truthiness, not presence.  With
a present-but-falsy body (the empty string) no Content-Type header is
sent, and with a configured empty-string apiKey no Authorization header
is sent — both against the claim's quantification over falsy values. -/
theorem c7_counterexample :
    (request (mkDriftClient { baseUrl := "b", apiKey := some "" }) routePath
      (some (.string ""))
      (.envelope 200 { success := true, data := .null, error := none })).headers
      = { contentType := none, authorization := none } := by
  decide

/-- C7 amended: Content-Type is sent iff the body argument is truthy
(present and not a falsy value such as the empty string), and
Authorization is sent iff a non-empty apiKey is configured. -/
theorem c7_headers_iff_truthy (client : DriftClient) (path : String)
    (body : Option JsValue) (outcome : FetchOutcome) :
    ((request client path body outcome).headers.contentType = some "application/json"
      ↔ bodyTruthy body = true) ∧
    ((request client path body outcome).headers.contentType = none
      ↔ bodyTruthy body = false) ∧
    ((request client path body outcome).headers.authorization ≠ none
      ↔ ∃ k, client.apiKey = some k ∧ k ≠ "") := by
  have hh : (request client path body outcome).headers = requestHeaders client.apiKey body := rfl
  rw [hh]
  refine ⟨?_, ?_, ?_⟩
  · cases hb : bodyTruthy body <;> simp [requestHeaders, hb]
  · cases hb : bodyTruthy body <;> simp [requestHeaders, hb]
  · cases hk : client.apiKey with
    | none => simp [requestHeaders]
    | some k =>
        by_cases hke : k = ""
        · subst hke
          simp [requestHeaders]
        · simp [requestHeaders, bne_iff_ne, hke]

/-- C8: the Prompt Assembler is a total function of its context; on a
context with zero current branch fact sets the current-only fact list is
empty, otherTopics lists every branch's topic, and the result is still
produced (messages projected as always) rather than an error. -/
theorem c8_no_current_branch_degrades (ctx : Context)
    (h : ∀ b ∈ ctx.allFacts, b.isCurrent = false) :
    selectedFacts true false ctx = [] ∧
    otherTopicsOf true ctx = ctx.allFacts.map (fun b => b.branchTopic) ∧
    (buildPrompt ctx .omitted).messages =
      ctx.messages.map fun m => { role := m.role, content := m.content } := by
  refine ⟨?_, ?_, rfl⟩
  · have hfilter : ctx.allFacts.filter (fun b => false || b.isCurrent) = [] := by
      rw [List.filter_eq_nil_iff]
      intro b hb
      simp [h b hb]
    have hsel : selectedFacts true false ctx
        = (ctx.allFacts.filter (fun b => false || b.isCurrent)).flatMap
            (fun b => b.facts.map fun f => { key := f.key, value := f.value }) := rfl
    rw [hsel, hfilter]
    rfl
  · have hfilter : ctx.allFacts.filter (fun b => !b.isCurrent) = ctx.allFacts := by
      rw [List.filter_eq_self]
      intro b hb
      simp [h b hb]
    have hot : otherTopicsOf true ctx
        = (ctx.allFacts.filter fun b => !b.isCurrent).map (fun b => b.branchTopic) := rfl
    rw [hot, hfilter]

/-- C8 witness: a two-branch context with no current branch. -/
theorem c8_no_current_branch_degrades_witness :
    selectedFacts true false noCurrentContext = [] ∧
    otherTopicsOf true noCurrentContext
      = noCurrentContext.allFacts.map (fun b => b.branchTopic) ∧
    (buildPrompt noCurrentContext .omitted).messages =
      noCurrentContext.messages.map fun m => { role := m.role, content := m.content } :=
  c8_no_current_branch_degrades noCurrentContext (by decide)

/-- C9 counterexample: the constructor strips only one trailing slash,
so "http://x//" and "http://x/" (the same base URL with its trailing
slash removed) produce different request URLs for the same path,
against the claim's more-than-one-slash case. -/
theorem c9_counterexample :
    (request (mkDriftClient { baseUrl := "http://x//" }) (getContextPath "b") none
        (.envelope 200 { success := true, data := .null, error := none })).url ≠
      (request (mkDriftClient { baseUrl := "http://x/" }) (getContextPath "b") none
        (.envelope 200 { success := true, data := .null, error := none })).url := by
  decide

/-- C9 amended: the stored baseUrl is the configured one with a single
trailing slash stripped, so a baseUrl ending in exactly one slash and
its slashless form yield identical request URLs for every path; the
timeout defaults to 10000 when absent, an explicit timeout is kept, and
the apiKey is stored unchanged. -/
theorem c9_single_slash_normalization (u path : String) (key : Option String)
    (h : u.toList.getLast? ≠ some '/') :
    (mkDriftClient { baseUrl := u ++ "/", apiKey := key }).baseUrl
        = (mkDriftClient { baseUrl := u, apiKey := key }).baseUrl ∧
    (∀ (body : Option JsValue) (outcome : FetchOutcome),
      (request (mkDriftClient { baseUrl := u ++ "/", apiKey := key }) path body outcome).url
        = (request (mkDriftClient { baseUrl := u, apiKey := key }) path body outcome).url) ∧
    (∀ t : Nat, (mkDriftClient { baseUrl := u, timeout := some t }).timeout = t) ∧
    (mkDriftClient { baseUrl := u }).timeout = 10000 ∧
    (mkDriftClient { baseUrl := u, apiKey := key }).apiKey = key := by
  have hs : stripOneTrailingSlash (u ++ "/") = u := strip_append_slash u
  have hu : stripOneTrailingSlash u = u := by
    unfold stripOneTrailingSlash
    rw [if_neg h]
  refine ⟨?_, fun body outcome => ?_, fun t => rfl, rfl, rfl⟩
  · show stripOneTrailingSlash (u ++ "/") = stripOneTrailingSlash u
    rw [hs, hu]
  · show stripOneTrailingSlash (u ++ "/") ++ path = stripOneTrailingSlash u ++ path
    rw [hs, hu]

/-- C9 witness: "http://x/" and "http://x" are equivalent and the
default timeout is 10000. -/
theorem c9_single_slash_normalization_witness :
    (mkDriftClient { baseUrl := "http://x" ++ "/", apiKey := none }).baseUrl
        = (mkDriftClient { baseUrl := "http://x", apiKey := none }).baseUrl ∧
    (mkDriftClient { baseUrl := "http://x" }).timeout = 10000 := by
  have h := c9_single_slash_normalization "http://x" routePath none (by decide)
  exact ⟨h.1, h.2.2.2.1⟩

/-- C10 counterexample: with an empty branch topic, no facts and no
other topics the space after "Current topic:" is trailing, the final
trim removes it, and the system string is "Current topic:", which does
not begin with "Current topic: " (space included) as the claim says. -/
theorem c10_counterexample :
    (buildPrompt emptyTopicContext (.legacy "")).system = "Current topic:" ∧
    ¬ ∃ r : String,
      (buildPrompt emptyTopicContext (.legacy "")).system = "Current topic: " ++ r := by
  have hsys : (buildPrompt emptyTopicContext (.legacy "")).system = "Current topic:" := by
    decide
  refine ⟨hsys, ?_⟩
  rintro ⟨r, hr⟩
  rw [hsys] at hr
  have hlen := congrArg String.length hr
  rw [String.length_append] at hlen
  rw [show ("Current topic:").length = 14 from by decide,
      show ("Current topic: ").length = 15 from by decide] at hlen
  omega

/-- C10 amended: the legacy bare empty string keeps the empty
systemPrompt (the default applies only when it is absent), and after the
final trim the system string always begins with "Current topic:"; the
space after the colon survives only when something non-whitespace
follows it, so only the colon-form of the claim holds for every
context. -/
theorem c10_legacy_empty_string_kept (ctx : Context) :
    (normalizeOptions (.legacy "")).systemPrompt = some "" ∧
    ∃ r : String, (buildPrompt ctx (.legacy "")).system = "Current topic:" ++ r := by
  refine ⟨rfl, ?_⟩
  rw [buildPrompt_system_default ctx (.legacy "") rfl, defaultSystem_spec]
  rw [show (normalizeOptions (.legacy "")).systemPrompt.getD "You are a helpful assistant."
      = "" from rfl]
  exact jsTrim_empty_sp ctx.branchTopic _ _

end Drift
